import Mathlib

/-!
Shallow embedding of the lead-scoring engine of this repository
(`backend/nlp_scorer.py`, and the priority classifier duplicated in
`backend/core_scoring.py`).

Modelling conventions:
* Python strings are Lean `String`s; the detectors work on `List Char`
  obtained by `String.toList`, and `str.lower()` is modelled by mapping
  `Char.toLower` (ASCII case folding).
* Python's `in` substring test is `isSubstr`.
* The regular expressions used by the detectors are simple enough to be
  modelled by direct scanning functions over the character list; the
  character classes `\d` and `\s` are modelled by their ASCII parts
  (`isPyDigit`, `isPySpace`).
* Python dicts of keywords are association lists kept in insertion order;
  `dict.get k default` is `dictGet`.
* The company-size multipliers (floats `0.5 .. 1.5` in the source) are
  modelled as exact rationals, and Python's `int()` conversion (truncation
  towards zero) is `pyInt`.
-/

/-- ASCII decimal digit, the model of regex `\d`. -/
def isPyDigit (c : Char) : Bool := c.isDigit

/-- ASCII whitespace as matched by regex `\s`. -/
def isPySpace (c : Char) : Bool :=
  c == ' ' || c == '\t' || c == '\n' || c == '\x0b' || c == '\x0c' || c == '\r'

/-- `str.lower()` (ASCII case folding). -/
def pyLower (s : List Char) : List Char := s.map Char.toLower

/-- Python's `needle in hay` substring test. -/
def isSubstr (needle hay : List Char) : Bool :=
  hay.tails.any (fun t => needle.isPrefixOf t)

/-- Does the string contain any of the given words? -/
def containsAny (ws : List (List Char)) (s : List Char) : Bool :=
  ws.any (fun w => isSubstr w s)

/-- `dict.get key default` over an association list (Python dict lookup). -/
def dictGet (l : List (String × ℚ)) (k : String) (d : ℚ) : ℚ :=
  match l with
  | [] => d
  | (k2, v) :: t => if k2 = k then v else dictGet t k d

/-- Python `int()` on a (here: exact rational) number: truncation towards 0. -/
def pyInt (q : ℚ) : ℤ := if q < 0 then ⌈q⌉ else ⌊q⌋

/-- Value of a run of decimal digits, Python `int(digit_string)`. -/
def digitsVal (ds : List Char) : Nat :=
  ds.foldl (fun n c => 10 * n + (c.toNat - 48)) 0

-- =============================================================================
-- SCORING KEYWORDS AND WEIGHTS (the Pattern Catalog, from nlp_scorer.py)
-- =============================================================================

def HIGH_PRIORITY_KEYWORDS : List (List Char × ℤ) :=
  [("urgent".toList, 15), ("asap".toList, 15), ("deadline".toList, 12),
   ("migration".toList, 10), ("immediately".toList, 12), ("critical".toList, 12),
   ("need now".toList, 15), ("emergency".toList, 12),
   ("budget allocated".toList, 15), ("budget approved".toList, 15),
   ("$".toList, 10), ("contract".toList, 10), ("enterprise".toList, 12),
   ("going bankrupt".toList, 15), ("vendor failing".toList, 12),
   ("system failing".toList, 12)]

def MEDIUM_PRIORITY_KEYWORDS : List (List Char × ℤ) :=
  [("demo".toList, 8), ("trial".toList, 7), ("pricing".toList, 6),
   ("information".toList, 5), ("interested".toList, 7), ("looking".toList, 6),
   ("considering".toList, 7), ("evaluate".toList, 8), ("compare".toList, 6),
   ("schedule".toList, 7), ("meeting".toList, 7), ("call".toList, 6)]

def NEGATIVE_KEYWORDS : List (List Char × ℤ) :=
  [("student".toList, -30), ("free".toList, -15), ("school".toList, -25),
   ("university".toList, -25), ("college".toList, -25), ("homework".toList, -30),
   ("project".toList, -10), ("thesis".toList, -25), ("research".toList, -8),
   ("job".toList, -20), ("hiring".toList, -25), ("resume".toList, -30),
   ("spam".toList, -40), ("click here".toList, -40), ("make money".toList, -40),
   ("earn".toList, -25)]

def EXECUTIVE_ROLES : List (List Char) :=
  ["cto".toList, "ceo".toList, "cfo".toList, "coo".toList, "vp".toList,
   "vice president".toList, "director".toList, "head of".toList,
   "chief".toList, "president".toList]

def DECISION_MAKER_ROLES : List (List Char) :=
  ["manager".toList, "lead".toList, "senior".toList, "principal".toList,
   "architect".toList]

def COMPANY_SIZE_SCORES : List (String × ℚ) :=
  [("1-10", 1/2), ("10-50", 7/10), ("50-200", 1),
   ("200-500", 6/5), ("500-1000", 7/5), ("1000+", 3/2)]

-- =============================================================================
-- NLP SCORING FUNCTIONS
-- =============================================================================

/-- One pass of the keyword loop: fold a keyword table over the running score,
adding the (signed) weight of every keyword present in the message. -/
def keywordLoop (tbl : List (List Char × ℤ)) (ml : List Char) (score : ℤ) : ℤ :=
  match tbl with
  | [] => score
  | kw :: rest => keywordLoop rest ml (if isSubstr kw.1 ml then score + kw.2 else score)

/-- `calculate_keyword_score`: the three keyword loops (high, medium, negative)
run in sequence over one accumulator starting at 0.  (The human-readable
`matched` evidence strings of the source are display-only and not modelled.) -/
def calculate_keyword_score (message : String) : ℤ :=
  keywordLoop NEGATIVE_KEYWORDS (pyLower message.toList)
    (keywordLoop MEDIUM_PRIORITY_KEYWORDS (pyLower message.toList)
      (keywordLoop HIGH_PRIORITY_KEYWORDS (pyLower message.toList) 0))

/-- `calculate_role_score`: the two first-match loops over the role keyword
lists; an early `return` on the first executive hit, then on the first
decision-maker hit, else the default. -/
def calculate_role_score (role : String) : ℤ × String :=
  if EXECUTIVE_ROLES.any (fun k => isSubstr k (pyLower role.toList)) then
    (25, "Executive")
  else if DECISION_MAKER_ROLES.any (fun k => isSubstr k (pyLower role.toList)) then
    (15, "Decision Maker")
  else
    (5, "Standard")

/-- `calculate_company_size_score`: dict lookup with default multiplier 1.0,
and the display category derived from the multiplier. -/
def calculate_company_size_score (company_size : String) : ℚ × String :=
  (dictGet COMPANY_SIZE_SCORES company_size 1,
   if dictGet COMPANY_SIZE_SCORES company_size 1 ≥ 7/5 then "Enterprise"
   else if dictGet COMPANY_SIZE_SCORES company_size 1 ≥ 1 then "Mid-Market"
   else "Small Business")

/-- Regex `\d+\s*(word1|word2|...)…` existence: somewhere in the string, a
nonempty digit run, then whitespace, then one of the given stems. -/
def digitThenWords (ws : List (List Char)) (s : List Char) : Bool :=
  s.tails.any (fun t =>
    match t with
    | [] => false
    | c :: _ =>
      isPyDigit c &&
        ws.any (fun w => w.isPrefixOf ((t.dropWhile isPyDigit).dropWhile isPySpace)))

/-- Regex `need.*now` existence: "need", then any characters other than a
newline, then "now". -/
def needNowMatch (s : List Char) : Bool :=
  s.tails.any (fun t =>
    "need".toList.isPrefixOf t &&
      isSubstr "now".toList ((t.drop 4).takeWhile (fun c => c != '\n')))

/-- The four urgency regex patterns of `detect_urgency`, in source order,
each as a match/no-match Bool on the lowercased message. -/
def urgencyFlags (ml : List Char) : List Bool :=
  [digitThenWords ["day".toList, "week".toList, "month".toList] ml,
   containsAny ["deadline".toList, "due date".toList, "expire".toList] ml,
   containsAny ["urgent".toList, "asap".toList, "immediately".toList,
                "critical".toList] ml,
   (needNowMatch ml || isSubstr "right away".toList ml)]

/-- The pattern loop of `detect_urgency` / `detect_budget_signals`: add a fixed
increment to the running score for every pattern that matched. -/
def patternLoop (flags : List Bool) (inc : ℤ) (score : ℤ) : ℤ :=
  match flags with
  | [] => score
  | b :: rest => patternLoop rest inc (if b then score + inc else score)

/-- `detect_urgency`: +10 per matching pattern, capped at 25; the flag records
whether at least one pattern matched. -/
def detect_urgency (message : String) : ℤ × Bool :=
  (min (patternLoop (urgencyFlags (pyLower message.toList)) 10 0) 25,
   (urgencyFlags (pyLower message.toList)).any id)

/-- Regex `\$[\d,]+k?` existence: a dollar sign immediately followed by at
least one digit or comma. -/
def dollarAmount (s : List Char) : Bool :=
  s.tails.any (fun t =>
    match t with
    | a :: c :: _ => a == '$' && (isPyDigit c || c == ',')
    | _ => false)

/-- Regex `\d+lit` existence (used for `\d+k budget`): a nonempty digit run
immediately followed by the literal. -/
def digitThenLit (lit : List Char) (s : List Char) : Bool :=
  s.tails.any (fun t =>
    match t with
    | [] => false
    | c :: _ => isPyDigit c && lit.isPrefixOf (t.dropWhile isPyDigit))

/-- The four budget regex patterns of `detect_budget_signals`, in source
order. -/
def budgetFlags (ml : List Char) : List Bool :=
  [dollarAmount ml,
   containsAny ["budget allocated".toList, "budget approved".toList,
                "budget available".toList] ml,
   containsAny ["funding secured".toList, "funding approved".toList] ml,
   digitThenLit "k budget".toList ml]

/-- `detect_budget_signals`: +15 per matching pattern, capped at 20. -/
def detect_budget_signals (message : String) : ℤ × Bool :=
  (min (patternLoop (budgetFlags (pyLower message.toList)) 15 0) 20,
   (budgetFlags (pyLower message.toList)).any id)

def scaleUnits1 : List (List Char) :=
  ["user".toList, "employee".toList, "staff".toList, "people".toList]

def scaleUnits2 : List (List Char) :=
  ["location".toList, "office".toList, "site".toList]

def scaleUnits3 : List (List Char) :=
  ["team".toList, "department".toList, "division".toList]

/-- A match of `(\d+)\+?\s*(unit...)` starting exactly at the head of `t`:
a nonempty digit run (the capture), an optional `+`, whitespace, then one of
the unit stems.  Returns the captured number. -/
def scaleAt (units : List (List Char)) (t : List Char) : Option Nat :=
  match t with
  | [] => none
  | c :: _ =>
    if isPyDigit c then
      if units.any (fun u =>
          u.isPrefixOf
            ((match t.dropWhile isPyDigit with
              | '+' :: r => r
              | r => r).dropWhile isPySpace)) then
        some (digitsVal (t.takeWhile isPyDigit))
      else none
    else none

/-- `re.search` for one scale pattern family: the leftmost position where the
pattern matches, returning the captured number. -/
def scaleSearch (units : List (List Char)) (s : List Char) : Option Nat :=
  s.tails.findSome? (fun t => scaleAt units t)

/-- The bucketing of the extracted number inside `detect_scale`'s loop body. -/
def scaleBucket (n : Nat) (ut : String) : ℤ × String :=
  if n ≥ 500 then (15, "Enterprise scale (" ++ toString n ++ "+ " ++ ut ++ ")")
  else if n ≥ 100 then (10, "Mid-market scale (" ++ toString n ++ "+ " ++ ut ++ ")")
  else if n ≥ 50 then (5, "Small-medium scale (" ++ toString n ++ "+ " ++ ut ++ ")")
  else (0, "Unknown scale")

/-- `detect_scale`: the three unit-pattern families tried in source order;
the first family whose regex matches determines the result (the loop `break`s
after the first match, even when the number is below every bucket). -/
def detect_scale (message : String) : ℤ × String :=
  match scaleSearch scaleUnits1 (pyLower message.toList) with
  | some n => scaleBucket n "users"
  | none =>
    match scaleSearch scaleUnits2 (pyLower message.toList) with
    | some n => scaleBucket n "locations"
    | none =>
      match scaleSearch scaleUnits3 (pyLower message.toList) with
      | some n => scaleBucket n "teams"
      | none => (0, "Unknown scale")

-- =============================================================================
-- MAIN SCORING FUNCTION
-- =============================================================================

/-- The sum `base_score + keyword + role + urgency + budget + scale` computed
by `calculate_nlp_score` before the multiplier is applied. -/
def total_before_multiplier (role message : String) : ℤ :=
  20 + calculate_keyword_score message + (calculate_role_score role).1 +
    (detect_urgency message).1 + (detect_budget_signals message).1 +
    (detect_scale message).1

/-- The result record of `calculate_nlp_score` (the returned dict, with its
`breakdown` and `signals` sub-dicts flattened into one structure). -/
structure NlpResult where
  score : ℤ
  base_score : ℤ
  keyword_score : ℤ
  role_score : ℤ
  urgency_score : ℤ
  budget_score : ℤ
  scale_score : ℤ
  size_multiplier : ℚ
  role_type : String
  size_category : String
  is_urgent : Bool
  has_budget : Bool
  scale_desc : String

/-- `calculate_nlp_score`: component scores, the pre-multiplier total, then
`final_score = int(total * multiplier)` (`pyInt`), then `max(0, min(100, ·))`. -/
def calculate_nlp_score (role company_size message : String) : NlpResult :=
  { score := max 0 (min 100 (pyInt ((total_before_multiplier role message : ℚ) *
      (calculate_company_size_score company_size).1)))
    base_score := 20
    keyword_score := calculate_keyword_score message
    role_score := (calculate_role_score role).1
    urgency_score := (detect_urgency message).1
    budget_score := (detect_budget_signals message).1
    scale_score := (detect_scale message).1
    size_multiplier := (calculate_company_size_score company_size).1
    role_type := (calculate_role_score role).2
    size_category := (calculate_company_size_score company_size).2
    is_urgent := (detect_urgency message).2
    has_budget := (detect_budget_signals message).2
    scale_desc := (detect_scale message).2 }

/-- `get_priority_label` from `nlp_scorer.py`. -/
def get_priority_label (score : ℤ) : String :=
  if score ≥ 80 then "🔥 High Priority"
  else if score ≥ 40 then "⚠️ Medium Priority"
  else if score ≥ 1 then "❄️ Low Priority"
  else "🚫 Junk/Error"

/-- `get_priority_label` from `core_scoring.py` (an identical duplicate). -/
def core_get_priority_label (score : ℤ) : String :=
  if score ≥ 80 then "🔥 High Priority"
  else if score ≥ 40 then "⚠️ Medium Priority"
  else if score ≥ 1 then "❄️ Low Priority"
  else "🚫 Junk/Error"

-- =============================================================================
-- Spec-side definitions (for the refinement comparison of claim C1)
-- =============================================================================

/-- The aggregation formula as the spec states it:
`clamp(0, 100, round((base + keyword + role + urgency + budget + scale) *
size_multiplier))` with rounding to the *nearest* integer applied once, after
the multiplication, and clamping last.  This follows the spec's words, to be
compared with `calculate_nlp_score`, which truncates instead of rounding. -/
def spec_round_score (role company_size message : String) : ℤ :=
  max 0 (min 100 (round ((total_before_multiplier role message : ℚ) *
    (calculate_company_size_score company_size).1)))

-- =============================================================================
-- Analysis helpers
-- =============================================================================

/-- The position of a company-size string in the ordered tier list
`1-10 < 10-50 < 50-200 < 200-500 < 500-1000 < 1000+`. -/
def tierIdx (cs : String) : Option Nat :=
  if cs = "1-10" then some 0
  else if cs = "10-50" then some 1
  else if cs = "50-200" then some 2
  else if cs = "200-500" then some 3
  else if cs = "500-1000" then some 4
  else if cs = "1000+" then some 5
  else none

/-- The multiplier of the `i`-th tier. -/
def tierMult (i : Nat) : ℚ :=
  if i = 0 then 1/2
  else if i = 1 then 7/10
  else if i = 2 then 1
  else if i = 3 then 6/5
  else if i = 4 then 7/5
  else 3/2

/-- Does the (lowercased) message contain any negative keyword? -/
def hasNegativeKeyword (message : String) : Bool :=
  NEGATIVE_KEYWORDS.any (fun kw => isSubstr kw.1 (pyLower message.toList))

-- =============================================================================
-- General lemmas about the embedding
-- =============================================================================

lemma nlp_score_eq (role cs msg : String) :
    (calculate_nlp_score role cs msg).score =
      max 0 (min 100 (pyInt ((total_before_multiplier role msg : ℚ) *
        (calculate_company_size_score cs).1))) := rfl

-- =============================================================================
-- C1: aggregation formula (rounding vs truncation)
-- =============================================================================

/-- C1 (counterexample): at role `"x"`, company size `"1-10"`, message
`"student evaluate"` the pre-multiplier total is 3 and the multiplier 1/2;
the code truncates `1.5` to final score 1, while the spec's formula
(`round` to the nearest integer after the multiplication) yields 2. -/
theorem C1_rounding_counterexample :
    (calculate_nlp_score "x" "1-10" "student evaluate").score = 1 ∧
    spec_round_score "x" "1-10" "student evaluate" = 2 ∧
    (calculate_nlp_score "x" "1-10" "student evaluate").score ≠
      spec_round_score "x" "1-10" "student evaluate" := by
  have ht : total_before_multiplier "x" "student evaluate" = 3 := by decide
  have hm : (calculate_company_size_score "1-10").1 = 1/2 := rfl
  have hs : (calculate_nlp_score "x" "1-10" "student evaluate").score = 1 := by
    rw [nlp_score_eq, ht, hm]
    rw [show pyInt ((3 : ℤ) * (1/2 : ℚ)) = 1 from by norm_num [pyInt]]
    decide
  have hr : spec_round_score "x" "1-10" "student evaluate" = 2 := by
    unfold spec_round_score
    rw [ht, hm]
    rw [show round ((3 : ℤ) * (1/2 : ℚ)) = 2 from by norm_num [round_eq]]
    decide
  exact ⟨hs, hr, by rw [hs, hr]; decide⟩

/-- C1 (amended): for every role, company size and message, the final score
equals `clamp(0, 100, trunc((20 + keyword + role + urgency + budget + scale) *
size_multiplier))`, where `trunc` is truncation towards zero (Python `int()`),
applied exactly once, after the multiplication, with clamping to [0,100]
last.  (The code truncates; it does not round to the nearest integer.) -/
theorem C1_truncated_aggregation (role company_size message : String) :
    (calculate_nlp_score role company_size message).score =
      max 0 (min 100 (pyInt
        (((20 + calculate_keyword_score message + (calculate_role_score role).1 +
           (detect_urgency message).1 + (detect_budget_signals message).1 +
           (detect_scale message).1 : ℤ) : ℚ) *
          (calculate_company_size_score company_size).1))) := rfl

-- =============================================================================
-- C2: worked scenario A
-- =============================================================================

/-- C2: on role `"CTO"`, company size `"1000+"`, message `"Urgent migration
needed, budget approved, 500+ users"`, the final score clamps to exactly 100,
the role sub-score is the Executive tier value 25 (the maximum role sub-score
over all roles), the size multiplier is 1.5, the urgency, budget and scale
detectors all fire, and the priority label of the score is the high-priority
label. -/
theorem C2_scenarioA :
    ((calculate_nlp_score "CTO" "1000+" "Urgent migration needed, budget approved, 500+ users").score = 100 ∧
     (calculate_nlp_score "CTO" "1000+" "Urgent migration needed, budget approved, 500+ users").role_score = 25 ∧
     (calculate_nlp_score "CTO" "1000+" "Urgent migration needed, budget approved, 500+ users").role_type = "Executive" ∧
     (calculate_nlp_score "CTO" "1000+" "Urgent migration needed, budget approved, 500+ users").size_multiplier = 3/2 ∧
     (calculate_nlp_score "CTO" "1000+" "Urgent migration needed, budget approved, 500+ users").is_urgent = true ∧
     (calculate_nlp_score "CTO" "1000+" "Urgent migration needed, budget approved, 500+ users").has_budget = true ∧
     (calculate_nlp_score "CTO" "1000+" "Urgent migration needed, budget approved, 500+ users").scale_score = 15 ∧
     get_priority_label (calculate_nlp_score "CTO" "1000+" "Urgent migration needed, budget approved, 500+ users").score =
       "🔥 High Priority") ∧
    ∀ r : String, (calculate_role_score r).1 ≤ 25 := by
  have ht : total_before_multiplier "CTO" "Urgent migration needed, budget approved, 500+ users" = 125 := by
    decide
  have hm : (calculate_company_size_score "1000+").1 = 3/2 := rfl
  have hs : (calculate_nlp_score "CTO" "1000+" "Urgent migration needed, budget approved, 500+ users").score = 100 := by
    rw [nlp_score_eq, ht, hm]
    rw [show pyInt ((125 : ℤ) * (3/2 : ℚ)) = 187 from by norm_num [pyInt]]
    decide
  refine ⟨⟨hs, by decide, by decide, hm, by decide, by decide, by decide, ?_⟩, ?_⟩
  · rw [hs]; decide
  · intro r
    unfold calculate_role_score
    split_ifs <;> norm_num

-- =============================================================================
-- C3: bounds
-- =============================================================================

/-- C3: for every role, company size and message, the final score is an
integer (it is typed `ℤ`) between 0 and 100 inclusive. -/
theorem C3_score_bounds (role company_size message : String) :
    0 ≤ (calculate_nlp_score role company_size message).score ∧
    (calculate_nlp_score role company_size message).score ≤ 100 := by
  rw [nlp_score_eq]
  exact ⟨le_max_left 0 _, max_le (by norm_num) (min_le_left 100 _)⟩

-- =============================================================================
-- C4: priority classifier
-- =============================================================================

/-- C4: the priority classifier is a pure function of the score checking the
thresholds in descending order, first match winning: the high-priority label
iff score ≥ 80, the medium label iff 40 ≤ score < 80, the low label iff
1 ≤ score < 40, and the junk label otherwise; the duplicate classifier in
`core_scoring.py` agrees with it on every score (so re-classifying a score
always yields the same label). -/
theorem C4_priority_classifier (s : ℤ) :
    (get_priority_label s = "🔥 High Priority" ↔ 80 ≤ s) ∧
    (get_priority_label s = "⚠️ Medium Priority" ↔ 40 ≤ s ∧ s < 80) ∧
    (get_priority_label s = "❄️ Low Priority" ↔ 1 ≤ s ∧ s < 40) ∧
    (get_priority_label s = "🚫 Junk/Error" ↔ s < 1) ∧
    core_get_priority_label s = get_priority_label s := by
  refine ⟨?_, ?_, ?_, ?_, rfl⟩ <;>
    (unfold get_priority_label; split_ifs <;>
      first
        | exact iff_of_true rfl (by omega)
        | exact iff_of_false (by decide) (by omega))

-- =============================================================================
-- C5: monotonicity in company size
-- =============================================================================

lemma tierMult_nonneg (i : Nat) : 0 ≤ tierMult i := by
  unfold tierMult
  split_ifs <;> norm_num

lemma tierMult_mono {i j : Nat} (hij : i ≤ j) : tierMult i ≤ tierMult j := by
  unfold tierMult
  split_ifs <;> first | omega | norm_num

lemma mult_of_tierIdx {cs : String} {i : Nat} (h : tierIdx cs = some i) :
    (calculate_company_size_score cs).1 = tierMult i := by
  unfold tierIdx at h
  split_ifs at h with e1 e2 e3 e4 e5 e6
  · simp only [Option.some.injEq] at h; subst h; rw [e1]; rfl
  · simp only [Option.some.injEq] at h; subst h; rw [e2]; rfl
  · simp only [Option.some.injEq] at h; subst h; rw [e3]; rfl
  · simp only [Option.some.injEq] at h; subst h; rw [e4]; rfl
  · simp only [Option.some.injEq] at h; subst h; rw [e5]; rfl
  · simp only [Option.some.injEq] at h; subst h; rw [e6]; rfl

lemma pyInt_mono_of_nonneg {a b : ℚ} (ha : 0 ≤ a) (hab : a ≤ b) :
    pyInt a ≤ pyInt b := by
  unfold pyInt
  rw [if_neg (not_lt.mpr ha), if_neg (not_lt.mpr (ha.trans hab))]
  exact Int.floor_mono hab

/-- C5: fixing role and message, if the pre-multiplier sum is nonnegative then
replacing the company size by a tier further right in the ordered tier list
(`tierIdx`) never decreases the final score, because the multiplier table
(`tierMult`) is non-decreasing across the tiers. -/
theorem C5_size_monotonicity (role msg cs1 cs2 : String) (i j : Nat)
    (h1 : tierIdx cs1 = some i) (h2 : tierIdx cs2 = some j) (hij : i ≤ j)
    (ht : 0 ≤ total_before_multiplier role msg) :
    (calculate_nlp_score role cs1 msg).score ≤
      (calculate_nlp_score role cs2 msg).score := by
  rw [nlp_score_eq, nlp_score_eq, mult_of_tierIdx h1, mult_of_tierIdx h2]
  have htq : (0:ℚ) ≤ (total_before_multiplier role msg : ℚ) := by exact_mod_cast ht
  apply max_le_max le_rfl
  apply min_le_min le_rfl
  exact pyInt_mono_of_nonneg (mul_nonneg htq (tierMult_nonneg i))
    (mul_le_mul_of_nonneg_left (tierMult_mono hij) htq)

/-- C5 (witness): concrete instance of the monotonicity theorem at role `"x"`,
empty message, tiers `"1-10"` and `"1000+"`. -/
theorem C5_witness :
    tierIdx "1-10" = some 0 ∧ tierIdx "1000+" = some 5 ∧ (0:Nat) ≤ 5 ∧
    0 ≤ total_before_multiplier "x" "" ∧
    (calculate_nlp_score "x" "1-10" "").score ≤
      (calculate_nlp_score "x" "1000+" "").score :=
  ⟨by decide, by decide, by decide, by decide,
   C5_size_monotonicity "x" "" "1-10" "1000+" 0 5 (by decide) (by decide)
     (by decide) (by decide)⟩

-- =============================================================================
-- C6: role tier detector, first-match policy
-- =============================================================================

/-- C6: the role tier detector is first-match: any executive keyword occurring
case-insensitively in the role yields the fixed sub-score 25 with label
"Executive" (the decision-maker list is not consulted); otherwise any
decision-maker keyword yields 15 with label "Decision Maker"; otherwise the
default is 5 with label "Standard". -/
theorem C6_role_first_match (role : String) :
    (EXECUTIVE_ROLES.any (fun k => isSubstr k (pyLower role.toList)) = true →
      calculate_role_score role = (25, "Executive")) ∧
    (EXECUTIVE_ROLES.any (fun k => isSubstr k (pyLower role.toList)) = false →
      DECISION_MAKER_ROLES.any (fun k => isSubstr k (pyLower role.toList)) = true →
      calculate_role_score role = (15, "Decision Maker")) ∧
    (EXECUTIVE_ROLES.any (fun k => isSubstr k (pyLower role.toList)) = false →
      DECISION_MAKER_ROLES.any (fun k => isSubstr k (pyLower role.toList)) = false →
      calculate_role_score role = (5, "Standard")) := by
  refine ⟨fun h => ?_, fun h1 h2 => ?_, fun h1 h2 => ?_⟩
  · unfold calculate_role_score
    rw [if_pos h]
  · unfold calculate_role_score
    rw [if_neg (by rw [h1]; decide), if_pos h2]
  · unfold calculate_role_score
    rw [if_neg (by rw [h1]; decide), if_neg (by rw [h2]; decide)]

/-- C6 (witness): the three branches of the role detector at concrete roles. -/
theorem C6_witness :
    calculate_role_score "CTO" = (25, "Executive") ∧
    calculate_role_score "Manager" = (15, "Decision Maker") ∧
    calculate_role_score "Intern" = (5, "Standard") :=
  ⟨(C6_role_first_match "CTO").1 (by decide),
   (C6_role_first_match "Manager").2.1 (by decide) (by decide),
   (C6_role_first_match "Intern").2.2 (by decide) (by decide)⟩

-- =============================================================================
-- C7: scale detector, first matching family wins, bucketed sub-score
-- =============================================================================

/-- C7: the scale detector tries its three unit-pattern families in the fixed
order users/employees/staff/people, then locations/offices/sites, then
teams/departments/divisions, and only the first family that matches
determines the result; the sub-score is bucketed by the extracted number
(≥500 → 15, ≥100 → 10, ≥50 → 5, below 50 → 0); at most one family ever
contributes. -/
theorem C7_scale_first_family (msg : String) (n : Nat) :
    (scaleSearch scaleUnits1 (pyLower msg.toList) = some n →
      detect_scale msg = scaleBucket n "users") ∧
    (scaleSearch scaleUnits1 (pyLower msg.toList) = none →
      scaleSearch scaleUnits2 (pyLower msg.toList) = some n →
      detect_scale msg = scaleBucket n "locations") ∧
    (scaleSearch scaleUnits1 (pyLower msg.toList) = none →
      scaleSearch scaleUnits2 (pyLower msg.toList) = none →
      scaleSearch scaleUnits3 (pyLower msg.toList) = some n →
      detect_scale msg = scaleBucket n "teams") ∧
    (scaleSearch scaleUnits1 (pyLower msg.toList) = none →
      scaleSearch scaleUnits2 (pyLower msg.toList) = none →
      scaleSearch scaleUnits3 (pyLower msg.toList) = none →
      detect_scale msg = (0, "Unknown scale")) ∧
    (∀ m ut, (scaleBucket m ut).1 =
      if 500 ≤ m then 15 else if 100 ≤ m then 10 else if 50 ≤ m then 5 else 0) := by
  refine ⟨fun h1 => ?_, fun h1 h2 => ?_, fun h1 h2 h3 => ?_, fun h1 h2 h3 => ?_,
    fun m ut => ?_⟩
  · unfold detect_scale
    rw [h1]
  · unfold detect_scale
    rw [h1, h2]
  · unfold detect_scale
    rw [h1, h2, h3]
  · unfold detect_scale
    rw [h1, h2, h3]
  · unfold scaleBucket
    split_ifs <;> rfl

/-- C7 (witness): on the message `"our team has 120 employees"` the first
family (users/employees/staff/people) matches with number 120, so the result
is the middle bucket of that family, even though "team" appears earlier in
the message. -/
theorem C7_witness :
    scaleSearch scaleUnits1 (pyLower "our team has 120 employees".toList) = some 120 ∧
    detect_scale "our team has 120 employees" = scaleBucket 120 "users" :=
  ⟨by decide,
   (C7_scale_first_family "our team has 120 employees" 120).1 (by decide)⟩

-- =============================================================================
-- C8: urgency and budget detectors, additive with cap
-- =============================================================================

lemma patternLoop_eq_count (k : ℤ) (l : List Bool) :
    ∀ s : ℤ, patternLoop l k s = s + k * (l.count true : ℤ) := by
  induction l with
  | nil => intro s; simp [patternLoop]
  | cons b t ih =>
    intro s
    cases b
    · simpa [patternLoop, List.count_cons] using ih s
    · show patternLoop t k (s + k) = _
      rw [ih (s + k)]
      simp [List.count_cons]
      ring
  
lemma any_id_iff_count_pos (l : List Bool) : l.any id = true ↔ 0 < l.count true := by
  induction l with
  | nil => simp
  | cons b t ih =>
    cases b
    · simp [List.count_cons, ih]
    · simp [List.count_cons]

lemma detect_urgency_def (msg : String) :
    detect_urgency msg =
      (min (patternLoop (urgencyFlags (pyLower msg.toList)) 10 0) 25,
       (urgencyFlags (pyLower msg.toList)).any id) := rfl

lemma detect_budget_def (msg : String) :
    detect_budget_signals msg =
      (min (patternLoop (budgetFlags (pyLower msg.toList)) 15 0) 20,
       (budgetFlags (pyLower msg.toList)).any id) := rfl

/-- C8: the urgency detector's sub-score is 10 points per matching pattern,
capped at 25, and `is_urgent` holds iff at least one of its four patterns
matched; the budget detector has the same additive-with-cap structure with
15 points per pattern, cap 20, and `has_budget` iff at least one budget
pattern matched. -/
theorem C8_additive_with_cap (msg : String) :
    (detect_urgency msg).1 =
      min (10 * ((urgencyFlags (pyLower msg.toList)).count true : ℤ)) 25 ∧
    ((detect_urgency msg).2 = true ↔ 0 < (urgencyFlags (pyLower msg.toList)).count true) ∧
    (detect_urgency msg).1 ≤ 25 ∧
    (detect_budget_signals msg).1 =
      min (15 * ((budgetFlags (pyLower msg.toList)).count true : ℤ)) 20 ∧
    ((detect_budget_signals msg).2 = true ↔ 0 < (budgetFlags (pyLower msg.toList)).count true) ∧
    (detect_budget_signals msg).1 ≤ 20 := by
  rw [detect_urgency_def, detect_budget_def]
  refine ⟨?_, any_id_iff_count_pos _, min_le_right _ _, ?_, any_id_iff_count_pos _,
    min_le_right _ _⟩
  · rw [patternLoop_eq_count]
    norm_num
  · rw [patternLoop_eq_count]
    norm_num

-- =============================================================================
-- C9: totality and the unknown-company-size default
-- =============================================================================

lemma dictGet_of_no_key (l : List (String × ℚ)) (k : String) (d : ℚ) :
    (∀ p ∈ l, p.1 ≠ k) → dictGet l k d = d := by
  induction l with
  | nil => intro _; rfl
  | cons p t ih =>
    intro h
    obtain ⟨k2, v⟩ := p
    show (if k2 = k then v else dictGet t k d) = d
    rw [if_neg (h (k2, v) (List.mem_cons_self _ t))]
    exact ih (fun q hq => h q (List.mem_cons_of_mem _ hq))

/-- C9: every function in the scoring pipeline is a total Lean function of
arbitrary strings (so scoring never throws in the model), and a company size
that is not a key of the multiplier table — such as `"N/A"` — defaults to
multiplier 1.0 with size category "Mid-Market" instead of raising an error. -/
theorem C9_totality_default (role cs msg : String)
    (h : ∀ p ∈ COMPANY_SIZE_SCORES, p.1 ≠ cs) :
    (calculate_nlp_score role cs msg).size_multiplier = 1 ∧
    (calculate_nlp_score role cs msg).size_category = "Mid-Market" := by
  have hm : dictGet COMPANY_SIZE_SCORES cs 1 = 1 := dictGet_of_no_key _ _ _ h
  constructor
  · show dictGet COMPANY_SIZE_SCORES cs 1 = 1
    exact hm
  · show (if dictGet COMPANY_SIZE_SCORES cs 1 ≥ 7/5 then "Enterprise"
      else if dictGet COMPANY_SIZE_SCORES cs 1 ≥ 1 then "Mid-Market"
      else "Small Business") = "Mid-Market"
    rw [hm, if_neg (by norm_num), if_pos (by norm_num)]

/-- C9 (witness): the unknown company size `"N/A"` is not in the table and
yields multiplier 1 and category "Mid-Market". -/
theorem C9_witness :
    (∀ p ∈ COMPANY_SIZE_SCORES, p.1 ≠ "N/A") ∧
    (calculate_nlp_score "Engineer" "N/A" "hello there").size_multiplier = 1 ∧
    (calculate_nlp_score "Engineer" "N/A" "hello there").size_category = "Mid-Market" :=
  ⟨by decide,
   (C9_totality_default "Engineer" "N/A" "hello there" (by decide)).1,
   (C9_totality_default "Engineer" "N/A" "hello there" (by decide)).2⟩

-- =============================================================================
-- C10: score floor without negative keywords; "Junk/Error" is unreachable
-- =============================================================================

lemma keywordLoop_le (tbl : List (List Char × ℤ)) (ml : List Char) :
    (∀ p ∈ tbl, 0 ≤ p.2) → ∀ s : ℤ, s ≤ keywordLoop tbl ml s := by
  induction tbl with
  | nil => intro _ s; exact le_refl s
  | cons p t ih =>
    intro hw s
    refine le_trans ?_
      (ih (fun q hq => hw q (List.mem_cons_of_mem p hq))
        (if isSubstr p.1 ml then s + p.2 else s))
    have hp : 0 ≤ p.2 := hw p (List.mem_cons_self p t)
    split <;> omega

lemma keywordLoop_no_match (tbl : List (List Char × ℤ)) (ml : List Char) :
    (∀ p ∈ tbl, isSubstr p.1 ml = false) → ∀ s : ℤ, keywordLoop tbl ml s = s := by
  induction tbl with
  | nil => intro _ s; rfl
  | cons p t ih =>
    intro h s
    show keywordLoop t ml (if isSubstr p.1 ml then s + p.2 else s) = s
    rw [if_neg (by rw [h p (List.mem_cons_self p t)]; decide)]
    exact ih (fun q hq => h q (List.mem_cons_of_mem p hq)) s

lemma keyword_nonneg_of_no_negative (msg : String)
    (h : hasNegativeKeyword msg = false) : 0 ≤ calculate_keyword_score msg := by
  have hneg : ∀ p ∈ NEGATIVE_KEYWORDS, isSubstr p.1 (pyLower msg.toList) = false := by
    intro p hp
    have := List.any_eq_false.mp h p hp
    simpa using this
  show 0 ≤ keywordLoop NEGATIVE_KEYWORDS (pyLower msg.toList)
    (keywordLoop MEDIUM_PRIORITY_KEYWORDS (pyLower msg.toList)
      (keywordLoop HIGH_PRIORITY_KEYWORDS (pyLower msg.toList) 0))
  rw [keywordLoop_no_match NEGATIVE_KEYWORDS (pyLower msg.toList) hneg]
  calc (0:ℤ) ≤ keywordLoop HIGH_PRIORITY_KEYWORDS (pyLower msg.toList) 0 :=
        keywordLoop_le _ _ (by decide) 0
    _ ≤ _ := keywordLoop_le _ _ (by decide) _

lemma urgency_score_nonneg (msg : String) : 0 ≤ (detect_urgency msg).1 := by
  rw [detect_urgency_def]
  refine le_min ?_ (by norm_num)
  rw [patternLoop_eq_count]
  positivity

lemma budget_score_nonneg (msg : String) : 0 ≤ (detect_budget_signals msg).1 := by
  rw [detect_budget_def]
  refine le_min ?_ (by norm_num)
  rw [patternLoop_eq_count]
  positivity

lemma scaleBucket_fst_nonneg (n : Nat) (ut : String) : 0 ≤ (scaleBucket n ut).1 := by
  unfold scaleBucket
  split_ifs <;> norm_num

lemma detect_scale_fst_nonneg (msg : String) : 0 ≤ (detect_scale msg).1 := by
  unfold detect_scale
  split
  · exact scaleBucket_fst_nonneg _ _
  · split
    · exact scaleBucket_fst_nonneg _ _
    · split
      · exact scaleBucket_fst_nonneg _ _
      · norm_num

lemma role_score_ge_five (role : String) : 5 ≤ (calculate_role_score role).1 := by
  unfold calculate_role_score
  split_ifs <;> norm_num

lemma mult_ge_half (cs : String) : 1/2 ≤ (calculate_company_size_score cs).1 := by
  show 1/2 ≤ dictGet COMPANY_SIZE_SCORES cs 1
  simp only [COMPANY_SIZE_SCORES, dictGet]
  split_ifs <;> norm_num

/-- C10: for every role and company size, and every message containing no
negative keyword, the pre-multiplier sum is at least 25 (base 20 plus the
minimum role sub-score 5, the other sub-scores being nonnegative), so with
the minimum multiplier 1/2 the final score is at least 12 and the lead is
never classified with the junk label. -/
theorem C10_no_negative_floor (role cs msg : String)
    (h : hasNegativeKeyword msg = false) :
    25 ≤ total_before_multiplier role msg ∧
    12 ≤ (calculate_nlp_score role cs msg).score ∧
    get_priority_label (calculate_nlp_score role cs msg).score ≠ "🚫 Junk/Error" := by
  have hkw := keyword_nonneg_of_no_negative msg h
  have hrole := role_score_ge_five role
  have hu := urgency_score_nonneg msg
  have hb := budget_score_nonneg msg
  have hsc := detect_scale_fst_nonneg msg
  have htot : 25 ≤ total_before_multiplier role msg := by
    unfold total_before_multiplier
    omega
  have hmul := mult_ge_half cs
  have h25 : (25:ℚ) ≤ (total_before_multiplier role msg : ℚ) := by exact_mod_cast htot
  have hq : (25 : ℚ) * (1/2) ≤
      (total_before_multiplier role msg : ℚ) * (calculate_company_size_score cs).1 :=
    mul_le_mul h25 hmul (by norm_num) (le_trans (by norm_num) h25)
  have hscore : 12 ≤ (calculate_nlp_score role cs msg).score := by
    rw [nlp_score_eq]
    have hnn : (0:ℚ) ≤ (total_before_multiplier role msg : ℚ) *
        (calculate_company_size_score cs).1 := le_trans (by norm_num) hq
    have hp : 12 ≤ pyInt ((total_before_multiplier role msg : ℚ) *
        (calculate_company_size_score cs).1) := by
      unfold pyInt
      rw [if_neg (not_lt.mpr hnn)]
      exact Int.le_floor.mpr (le_trans (by norm_num) hq)
    exact le_trans (le_min (by norm_num) hp) (le_max_right 0 _)
  refine ⟨htot, hscore, ?_⟩
  unfold get_priority_label
  split_ifs <;> first | decide | (exfalso; omega)

/-- C10 (witness): the message `"hello"` contains no negative keyword, and at
role `"x"`, size `"1-10"` the score is at least 12 and not junk. -/
theorem C10_witness :
    hasNegativeKeyword "hello" = false ∧
    25 ≤ total_before_multiplier "x" "hello" ∧
    12 ≤ (calculate_nlp_score "x" "1-10" "hello").score ∧
    get_priority_label (calculate_nlp_score "x" "1-10" "hello").score ≠ "🚫 Junk/Error" :=
  ⟨by decide,
   (C10_no_negative_floor "x" "1-10" "hello" (by decide)).1,
   (C10_no_negative_floor "x" "1-10" "hello" (by decide)).2.1,
   (C10_no_negative_floor "x" "1-10" "hello" (by decide)).2.2⟩
